import Mathlib

/-!
Verification of the `poll-file-for-changes` repository.

The comparator (`src/sampled-file-comparator.ts`) is embedded twice, at two
levels of abstraction that mirror the source:

* a pure model over `FileRes` (a byte-addressable resource: size plus byte
  content), where `readBlock` carries the source's slice-and-clip semantics
  (`file.slice(offset, min(offset+length, size))`), and

* an effectful model over `FallibleFile` (the resource interface of the
  design: `read(offset, length)` may fail), written in explicit state-passing
  style: `initE` returns the comparator state after the call (a thrown read
  error leaves the state as it was, since the source assigns `baselineSize`
  and `samples` only after all reads completed), and `isSameE` additionally
  returns the number of byte-range reads performed, the observable a
  read-counting test double would record.

The watch controller (the two interval effects of `src/main.tsx`) is embedded
as two step functions, `pollTickE` (the poll-tick effect, lines 47-73) and
`idleTick` (the idle-timeout effect, lines 75-93), over an explicit
`WatchState` record holding the pieces of React state the effects touch
(`comparator`, `lastUpdate`, `lastModifiedRef`).

The source computes sample midpoints in floating point
(`Math.floor(((i + 0.5) / count) * size)`); the embedding uses the exact
rational value `(2*i+1)*size / (2*count)` (floor division). `Math.ceil(size /
blockSize)` is embedded as `(size + blockSize - 1) / blockSize`, exact for
`blockSize > 0`.
-/

set_option autoImplicit false

namespace PollFile

/-- A byte range `[offset, offset+length)` within a resource
(`Region` of `sampled-file-comparator.ts`). -/
structure Region where
  offset : Nat
  length : Nat
deriving DecidableEq, Repr

/-- A region together with the bytes captured from it at baseline time
(`Sample` of `sampled-file-comparator.ts`); bytes are modelled as `Nat`s. -/
structure Sample where
  offset : Nat
  length : Nat
  data : List Nat
deriving DecidableEq, Repr

/-- The comparator's fields: configuration (`blockSize`, `sampleCount`,
fixed at construction) and the baseline state (`baselineSize`, `samples`,
both `null` before the first `init`). -/
structure SampledFileComparator where
  blockSize : Nat
  sampleCount : Nat
  baselineSize : Option Nat
  samples : Option (List Sample)
deriving DecidableEq, Repr

/-- `new SampledFileComparator({blockSize, sampleCount})`: baseline absent. -/
def mkComparator (blockSize sampleCount : Nat) : SampledFileComparator :=
  ⟨blockSize, sampleCount, none, none⟩

/-- Errors the comparator can raise: the `throw new Error(...)` of
`isSame`/`getRegions` before `init`, and a rejected byte-range read. -/
inductive CmpError where
  | notInitialized
  | readFailure
deriving DecidableEq, Repr

/-- A byte-addressable resource (a `File`): a size and the byte value at
each index (only indices below `size` are ever read). -/
structure FileRes where
  size : Nat
  byteAt : Nat → Nat

/-- `readBlock(file, offset, length)`: bytes of
`file.slice(offset, min(offset + length, file.size))`. -/
def FileRes.readBlock (file : FileRes) (offset length : Nat) : List Nat :=
  (List.range (min (offset + length) file.size - offset)).map
    fun k => file.byteAt (offset + k)

/-- `buffersEqual(a, b)`: length check, then index-by-index comparison. -/
def buffersEqual (a b : List Nat) : Bool :=
  if a.length ≠ b.length then false
  else (List.range a.length).all fun i => a.getD i 0 == b.getD i 0

/-- The sample offset for index `i` out of `count` over a resource of size
`size` (lines 94-100 of `sampled-file-comparator.ts`): the floor of the
midpoint ratio `(i + 0.5)/count` times `size`, shifted left by half a block
(truncated at 0, as the `offset < 0` clamp does), then pulled inward so the
block does not read past the end. -/
def sampleOffset (blockSize size count i : Nat) : Nat :=
  let mid := (2 * i + 1) * size / (2 * count)
  let offset := mid - blockSize / 2
  if offset + blockSize > size then size - blockSize else offset

/-- `init(file)` over an infallible resource: the three branches of the
source (empty, tiny, larger file); stored sample lengths are the lengths of
the blocks actually read. -/
def SampledFileComparator.init (c : SampledFileComparator) (file : FileRes) :
    SampledFileComparator :=
  let size := file.size
  if size = 0 then
    { c with baselineSize := some 0, samples := some [] }
  else if size ≤ c.blockSize then
    let data := file.readBlock 0 size
    { c with baselineSize := some size,
             samples := some [⟨0, data.length, data⟩] }
  else
    let maxSamples := (size + c.blockSize - 1) / c.blockSize
    let count := min c.sampleCount maxSamples
    let samples := (List.range count).map fun i =>
      let offset := sampleOffset c.blockSize size count i
      let data := file.readBlock offset c.blockSize
      (⟨offset, data.length, data⟩ : Sample)
    { c with baselineSize := some size, samples := some samples }

/-- `getRegions()`: the samples' regions without their bytes, or the
not-initialized error when `samples` is `null`. -/
def SampledFileComparator.getRegions (c : SampledFileComparator) :
    Except CmpError (List Region) :=
  match c.samples with
  | none => Except.error CmpError.notInitialized
  | some samples => Except.ok (samples.map fun s => ⟨s.offset, s.length⟩)

/-- `isSame(file)` over an infallible resource: not-initialized guard, size
quick-reject, empty-baseline fast accept, then block-by-block comparison. -/
def SampledFileComparator.isSame (c : SampledFileComparator) (file : FileRes) :
    Except CmpError Bool :=
  match c.baselineSize, c.samples with
  | some bsize, some samples =>
    if file.size ≠ bsize then Except.ok false
    else if bsize = 0 ∨ samples.length = 0 then Except.ok true
    else Except.ok (samples.all fun s =>
      buffersEqual (file.readBlock s.offset s.length) s.data)
  | _, _ => Except.error CmpError.notInitialized

/-- The resource interface of the design (§6 of the spec): a size and a
`read(offset, length)` that yields bytes or fails. -/
structure FallibleFile where
  size : Nat
  read : Nat → Nat → Option (List Nat)

/-- The sampling loop of `init` (lines 93-108) over a fallible resource:
processes indices `0, 1, …` in order, aborting at the first failed read.
`initSamplesE blockSize file size count i` is the sample list after the
first `i` iterations. -/
def initSamplesE (blockSize : Nat) (file : FallibleFile) (size count : Nat) :
    Nat → Except CmpError (List Sample)
  | 0 => Except.ok []
  | i + 1 =>
    match initSamplesE blockSize file size count i with
    | Except.error e => Except.error e
    | Except.ok acc =>
      let offset := sampleOffset blockSize size count i
      match file.read offset blockSize with
      | none => Except.error CmpError.readFailure
      | some data => Except.ok (acc ++ [⟨offset, data.length, data⟩])

/-- `init(file)` in state-passing style over a fallible resource: returns
the outcome and the comparator state after the call. The source assigns
`this.baselineSize` / `this.samples` only after every read has succeeded,
so every failing path returns the entry state unchanged. -/
def initE (c : SampledFileComparator) (file : FallibleFile) :
    Except CmpError Unit × SampledFileComparator :=
  let size := file.size
  if size = 0 then
    (Except.ok (), { c with baselineSize := some 0, samples := some [] })
  else if size ≤ c.blockSize then
    match file.read 0 size with
    | none => (Except.error CmpError.readFailure, c)
    | some data =>
      (Except.ok (), { c with baselineSize := some size,
                              samples := some [⟨0, data.length, data⟩] })
  else
    let maxSamples := (size + c.blockSize - 1) / c.blockSize
    let count := min c.sampleCount maxSamples
    match initSamplesE c.blockSize file size count count with
    | Except.error e => (Except.error e, c)
    | Except.ok samples =>
      (Except.ok (), { c with baselineSize := some size,
                              samples := some samples })

/-- The comparison loop of `isSame` (lines 134-139) over a fallible
resource, threading the number of byte-range reads performed: a failed read
aborts, a mismatching block short-circuits to `false`. -/
def isSameGo (file : FallibleFile) :
    List Sample → Nat → Except CmpError Bool × Nat
  | [], n => (Except.ok true, n)
  | s :: rest, n =>
    match file.read s.offset s.length with
    | none => (Except.error CmpError.readFailure, n + 1)
    | some block =>
      if buffersEqual block s.data then isSameGo file rest (n + 1)
      else (Except.ok false, n + 1)

/-- `isSame(file)` in state-passing style over a fallible resource: returns
the outcome, the comparator state after the call (the source never assigns
`this.*` in `isSame`), and the number of byte-range reads performed. -/
def isSameE (c : SampledFileComparator) (file : FallibleFile) :
    Except CmpError Bool × SampledFileComparator × Nat :=
  match c.baselineSize, c.samples with
  | some bsize, some samples =>
    if file.size ≠ bsize then (Except.ok false, c, 0)
    else if bsize = 0 ∨ samples.length = 0 then (Except.ok true, c, 0)
    else
      ((isSameGo file samples 0).1, c, (isSameGo file samples 0).2)
  | _, _ => (Except.error CmpError.notInitialized, c, 0)

/-- The notifications the watch controller emits (the `enqueueSnackbar`
calls of `main.tsx`). -/
inductive Notification where
  | changedMetadata
  | changedContent
  | stoppedWatching
deriving DecidableEq, Repr

/-- The React state the two interval effects of `main.tsx` read and write:
`comparator` (`undefined` when not watching), `lastUpdate`, and the
`lastModifiedRef` tracked timestamp. -/
structure WatchState where
  comparator : Option SampledFileComparator
  lastUpdate : Option Nat
  lastModified : Option Nat
deriving Repr

/-- What one `fileHandle.getFile()` call observes: the resource snapshot
and its modification timestamp. -/
structure Snapshot where
  file : FallibleFile
  lastModified : Nat

/-- One execution of the poll-tick callback (`main.tsx` lines 50-68).
`snap = none` models a rejected `getFile()`. A thrown error anywhere aborts
the rest of the callback (no catch handler exists), leaving state as is;
the final component counts the byte-range reads `isSame` performed. -/
def pollTickE (s : WatchState) (snap : Option Snapshot) (now : Nat) :
    WatchState × List Notification × Nat :=
  match s.comparator with
  | none => (s, [], 0)
  | some comp =>
    match snap with
    | none => (s, [], 0)
    | some snap =>
      if s.lastModified ≠ some snap.lastModified then
        ({ s with lastModified := some snap.lastModified,
                  lastUpdate := some now },
         [Notification.changedMetadata], 0)
      else
        match isSameE comp snap.file with
        | (Except.error _, _, n) => (s, [], n)
        | (Except.ok true, _, n) => (s, [], n)
        | (Except.ok false, comp1, n) =>
          match initE comp1 snap.file with
          | (Except.error _, comp2) =>
            ({ s with comparator := some comp2 },
             [Notification.changedContent], n)
          | (Except.ok _, comp2) =>
            ({ s with comparator := some comp2, lastUpdate := some now },
             [Notification.changedContent], n)

/-- One execution of the idle-timeout callback (`main.tsx` lines 78-88):
runs only while `lastUpdate` is set (the effect returns early otherwise);
past the deadline it discards the comparator, clears `lastUpdate` and
emits the stopped-watching notification. -/
def idleTick (s : WatchState) (maxDeltaMs now : Nat) :
    WatchState × List Notification :=
  match s.lastUpdate with
  | none => (s, [])
  | some lu =>
    if now - lu > maxDeltaMs then
      ({ s with comparator := none, lastUpdate := none },
       [Notification.stoppedWatching])
    else (s, [])

/-! ### Helper lemmas -/

@[simp] theorem mkComparator_blockSize (b s : Nat) :
    (mkComparator b s).blockSize = b := rfl

@[simp] theorem mkComparator_sampleCount (b s : Nat) :
    (mkComparator b s).sampleCount = s := rfl

theorem buffersEqual_eq_true_iff (a b : List Nat) :
    buffersEqual a b = true ↔ a = b := by
  unfold buffersEqual
  split
  · rename_i hne
    constructor
    · intro h; exact absurd h (by simp)
    · intro h; exact absurd (by rw [h]) hne
  · rename_i hlen
    rw [not_ne_iff] at hlen
    constructor
    · intro h
      refine List.ext_getElem hlen fun i h1 h2 => ?_
      simp only [List.all_eq_true, List.mem_range] at h
      have := h i h1
      rwa [List.getD_eq_getElem a 0 h1, List.getD_eq_getElem b 0 h2,
        beq_iff_eq] at this
    · intro h
      subst h
      simp [List.all_eq_true]

theorem readBlock_length (f : FileRes) (o l : Nat) :
    (f.readBlock o l).length = min (o + l) f.size - o := by
  simp [FileRes.readBlock]

theorem readBlock_length_of_le (f : FileRes) {o l : Nat} (h : o + l ≤ f.size) :
    (f.readBlock o l).length = l := by
  rw [readBlock_length]
  omega

/-- Re-reading a sample's exact region from a byte-identical resource
returns the sample's bytes. -/
theorem readBlock_agree {f g : FileRes} (hsz : g.size = f.size)
    (hag : ∀ i, i < f.size → g.byteAt i = f.byteAt i) (o l : Nat) :
    g.readBlock o ((f.readBlock o l).length) = f.readBlock o l := by
  rw [readBlock_length]
  unfold FileRes.readBlock
  rw [hsz]
  have harg : min (o + (min (o + l) f.size - o)) f.size - o
      = min (o + l) f.size - o := by omega
  rw [harg]
  refine List.map_congr_left fun k hk => ?_
  rw [List.mem_range] at hk
  exact hag (o + k) (by omega)

theorem sampleOffset_add_le {blockSize size : Nat} (h : blockSize ≤ size)
    (count i : Nat) :
    sampleOffset blockSize size count i + blockSize ≤ size := by
  simp only [sampleOffset]
  split <;> omega

theorem init_zero (c : SampledFileComparator) {f : FileRes} (h : f.size = 0) :
    c.init f = { c with baselineSize := some 0, samples := some [] } := by
  unfold SampledFileComparator.init
  rw [if_pos h]

theorem init_small (c : SampledFileComparator) {f : FileRes}
    (h0 : f.size ≠ 0) (h1 : f.size ≤ c.blockSize) :
    c.init f = { c with baselineSize := some f.size,
                        samples := some [⟨0, (f.readBlock 0 f.size).length,
                          f.readBlock 0 f.size⟩] } := by
  unfold SampledFileComparator.init
  rw [if_neg h0, if_pos h1]

theorem init_large (c : SampledFileComparator) {f : FileRes}
    (h : c.blockSize < f.size) :
    c.init f = { c with baselineSize := some f.size,
                        samples := some ((List.range
                            (min c.sampleCount
                              ((f.size + c.blockSize - 1) / c.blockSize))).map
                          fun i =>
                            let offset := sampleOffset c.blockSize f.size
                              (min c.sampleCount
                                ((f.size + c.blockSize - 1) / c.blockSize)) i
                            (⟨offset, (f.readBlock offset c.blockSize).length,
                              f.readBlock offset c.blockSize⟩ : Sample)) } := by
  unfold SampledFileComparator.init
  rw [if_neg (by omega), if_neg (by omega)]

/-- After any `init`, both baseline fields are set. -/
theorem init_initialized (c : SampledFileComparator) (f : FileRes) :
    ∃ sz sams, (c.init f).baselineSize = some sz
      ∧ (c.init f).samples = some sams := by
  by_cases h0 : f.size = 0
  · rw [init_zero c h0]; exact ⟨0, [], rfl, rfl⟩
  · by_cases h1 : f.size ≤ c.blockSize
    · rw [init_small c h0 h1]; exact ⟨_, _, rfl, rfl⟩
    · rw [init_large c (by omega)]; exact ⟨_, _, rfl, rfl⟩

/-- Unfolding equation for `isSame` on an initialized comparator. -/
theorem isSame_eq {c : SampledFileComparator} {bs : Nat} {sm : List Sample}
    (hb : c.baselineSize = some bs) (hs : c.samples = some sm) (g : FileRes) :
    c.isSame g =
      (if g.size ≠ bs then Except.ok false
       else if bs = 0 ∨ sm.length = 0 then Except.ok true
       else Except.ok (sm.all fun s =>
         buffersEqual (g.readBlock s.offset s.length) s.data)) := by
  obtain ⟨cb, cs, cbs, csm⟩ := c
  dsimp only at hb hs
  subst hb hs
  rfl

/-- On an initialized comparator, `isSame` always returns a comparison
result, never an error. -/
theorem isSame_ok_of_initialized {c : SampledFileComparator} {bs : Nat}
    {sm : List Sample} (hb : c.baselineSize = some bs)
    (hs : c.samples = some sm) (g : FileRes) :
    ∃ b, c.isSame g = Except.ok b := by
  rw [isSame_eq hb hs]
  split
  · exact ⟨false, rfl⟩
  split
  · exact ⟨true, rfl⟩
  · exact ⟨_, rfl⟩

/-- `isSame` after `init` on a byte-identical resource accepts: every
sample re-read returns the captured bytes. -/
theorem isSame_init_agree (c : SampledFileComparator) {f g : FileRes}
    (hsz : g.size = f.size) (hag : ∀ i, i < f.size → g.byteAt i = f.byteAt i) :
    (c.init f).isSame g = Except.ok true := by
  by_cases h0 : f.size = 0
  · rw [init_zero c h0, isSame_eq rfl rfl]
    simp [hsz, h0]
  · by_cases h1 : f.size ≤ c.blockSize
    · rw [init_small c h0 h1, isSame_eq rfl rfl]
      rw [if_neg (by simp [hsz]), if_neg (by simp [h0])]
      simp only [List.all_cons, List.all_nil, Bool.and_true]
      rw [readBlock_agree hsz hag 0 f.size]
      exact congrArg Except.ok ((buffersEqual_eq_true_iff _ _).mpr rfl)
    · rw [init_large c (by omega), isSame_eq rfl rfl]
      rw [if_neg (by simp [hsz])]
      split
      · rfl
      · congr 1
        rw [List.all_eq_true]
        intro s hsm
        rw [List.mem_map] at hsm
        obtain ⟨i, _, rfl⟩ := hsm
        simp only
        rw [readBlock_agree hsz hag]
        exact (buffersEqual_eq_true_iff _ _).mpr rfl

/-- Unfolding equation for `isSameE` on an initialized comparator. -/
theorem isSameE_eq {c : SampledFileComparator} {bs : Nat} {sm : List Sample}
    (hb : c.baselineSize = some bs) (hs : c.samples = some sm)
    (file : FallibleFile) :
    isSameE c file =
      (if file.size ≠ bs then (Except.ok false, c, 0)
       else if bs = 0 ∨ sm.length = 0 then (Except.ok true, c, 0)
       else ((isSameGo file sm 0).1, c, (isSameGo file sm 0).2)) := by
  obtain ⟨cb, cs, cbs, csm⟩ := c
  dsimp only at hb hs
  subst hb hs
  rfl

/-- Unfolding equation for `getRegions` on an initialized comparator. -/
theorem getRegions_eq {c : SampledFileComparator} {sm : List Sample}
    (hs : c.samples = some sm) :
    c.getRegions = Except.ok (sm.map fun s => ⟨s.offset, s.length⟩) := by
  obtain ⟨cb, cs, cbs, csm⟩ := c
  dsimp only at hs
  subst hs
  rfl

/-- `init` over a fallible resource leaves the comparator state untouched
whenever it returns an error: the baseline fields are assigned only after
every read has succeeded. -/
theorem initE_error_state (c : SampledFileComparator) (file : FallibleFile)
    (e : CmpError) (c2 : SampledFileComparator)
    (h : initE c file = (Except.error e, c2)) : c2 = c := by
  simp only [initE] at h
  split at h
  · exact absurd (congrArg Prod.fst h) (by simp)
  · split at h
    · split at h
      · exact (congrArg Prod.snd h).symm
      · exact absurd (congrArg Prod.fst h) (by simp)
    · split at h
      · exact (congrArg Prod.snd h).symm
      · exact absurd (congrArg Prod.fst h) (by simp)

/-- `isSame` never modifies the comparator state. -/
theorem isSameE_state (c : SampledFileComparator) (file : FallibleFile) :
    (isSameE c file).2.1 = c := by
  match hb : c.baselineSize, hs : c.samples with
  | some bsize, some samples =>
    rw [isSameE_eq hb hs]
    split
    · rfl
    split <;> rfl
  | none, _ =>
    obtain ⟨cb, cs, cbs, csm⟩ := c
    dsimp only at hb hs
    subst hb
    rfl
  | some bsize, none =>
    obtain ⟨cb, cs, cbs, csm⟩ := c
    dsimp only at hb hs
    subst hb hs
    rfl

/-! ### Concrete inputs used by the witness theorems -/

/-- One-byte resource holding byte 5. -/
def fW1 : FileRes := ⟨1, fun _ => 5⟩

/-- Byte-identical copy of `fW1`. -/
def gW1 : FileRes := ⟨1, fun _ => 5⟩

/-- One-byte resource differing from `fW1` at index 0. -/
def gW1b : FileRes := ⟨1, fun _ => 6⟩

/-- Empty resource. -/
def fW2z : FileRes := ⟨0, fun _ => 0⟩

/-- Three-byte resource (small relative to block size 4). -/
def fW2s : FileRes := ⟨3, fun i => i⟩

/-- Ten-byte resource (large relative to block size 4). -/
def fW2l : FileRes := ⟨10, fun i => i⟩

/-- An initialized comparator whose baseline is two bytes `[1, 2]`. -/
def cW3 : SampledFileComparator := ⟨4, 2, some 2, some [⟨0, 2, [1, 2]⟩]⟩

/-- A five-byte resource whose every read fails. -/
def fW3 : FallibleFile := ⟨5, fun _ _ => none⟩

/-- An initialized comparator whose baseline is three bytes `[1, 2, 3]`. -/
def cW10 : SampledFileComparator := ⟨4, 2, some 3, some [⟨0, 3, [1, 2, 3]⟩]⟩

/-- A ten-byte resource whose every read fails. -/
def fW10 : FallibleFile := ⟨10, fun _ _ => none⟩

/-- A watching session: comparator `cW10` active, `lastUpdate = 10`,
tracked timestamp 5. -/
def sW7 : WatchState := ⟨some cW10, some 10, some 5⟩

/-- A snapshot with unchanged timestamp 5 over a three-byte resource whose
every read fails. -/
def snapW7 : Snapshot := ⟨⟨3, fun _ _ => none⟩, 5⟩

/-- A comparator whose baseline (size 10, one sample `[1, 2, 3]`) will be
contradicted by `snapW7b`'s content. -/
def cW7b : SampledFileComparator := ⟨4, 2, some 10, some [⟨0, 3, [1, 2, 3]⟩]⟩

/-- A snapshot with unchanged timestamp 5 whose length-3 comparison read
succeeds with mismatching bytes `[9, 9, 9]` while the length-4 re-baseline
reads of `init` fail. -/
def snapW7b : Snapshot :=
  ⟨⟨10, fun _ l => if l = 3 then some [9, 9, 9] else none⟩, 5⟩

/-- A watching session: comparator `cW7b` active, `lastUpdate = 10`,
tracked timestamp 5. -/
def sW7b : WatchState := ⟨some cW7b, some 10, some 5⟩

/-- A watching session for the metadata fast-path witness: tracked
timestamp 5, `lastUpdate = 10`. -/
def sW4 : WatchState := ⟨some cW10, some 10, some 5⟩

/-- A snapshot whose timestamp 7 differs from the tracked value 5. -/
def snapW4 : Snapshot := ⟨⟨3, fun _ l => some (List.replicate l 0)⟩, 7⟩

/-- A watching session with `lastUpdate = 100`. -/
def sW5 : WatchState := ⟨some cW10, some 100, some 5⟩

/-- A three-byte resource whose reads return bytes of value 7. -/
def fW8 : FallibleFile := ⟨3, fun _ l => some (List.replicate l 7)⟩

/-- An initialized comparator whose baseline is three bytes `[7, 7, 7]`. -/
def cW8 : SampledFileComparator := ⟨4, 2, some 3, some [⟨0, 3, [7, 7, 7]⟩]⟩

/-- Ten-thousand-byte resource of end-to-end scenario A. -/
def fileA : FileRes := ⟨10000, fun i => i % 251⟩

/-- Byte-identical copy of `fileA`. -/
def fileACopy : FileRes := ⟨10000, fun i => i % 251⟩

/-- The comparator of scenario A: `blockSize = 4096`, `sampleCount = 64`,
after `init` on `fileA`. -/
def cmpA : SampledFileComparator := (mkComparator 4096 64).init fileA

theorem fileA_size : fileA.size = 10000 := rfl

/-! ### The claims -/

/-- Claim C1: for every resource of size `S` with `0 < S ≤ blockSize`,
after `init` the baseline holds exactly one sample `{offset 0, length S}`
covering the whole resource, so `isSame` on a byte-identical resource of
size `S` returns "same" and `isSame` on any resource of size `S` differing
in at least one byte returns "different" (exactness for small files). -/
theorem C1_small_file_exact (blockSize sampleCount S : Nat)
    (f g g2 : FileRes) (hS : 0 < S) (hbs : S ≤ blockSize) (hf : f.size = S)
    (hg : g.size = S) (hag : ∀ i, i < S → g.byteAt i = f.byteAt i)
    (hg2 : g2.size = S) (hne : ∃ i, i < S ∧ g2.byteAt i ≠ f.byteAt i) :
    ((mkComparator blockSize sampleCount).init f).samples
        = some [⟨0, S, f.readBlock 0 S⟩]
      ∧ ((mkComparator blockSize sampleCount).init f).isSame g
        = Except.ok true
      ∧ ((mkComparator blockSize sampleCount).init f).isSame g2
        = Except.ok false := by
  subst hf
  have h0 : f.size ≠ 0 := by omega
  have hL : (f.readBlock 0 f.size).length = f.size :=
    readBlock_length_of_le f (by omega)
  refine ⟨?_, ?_, ?_⟩
  · rw [init_small _ h0 hbs]
    simp [hL]
  · exact isSame_init_agree _ hg hag
  · rw [init_small _ h0 hbs, isSame_eq rfl rfl]
    rw [if_neg (by simp [hg2]), if_neg (by simp [h0])]
    simp only [List.all_cons, List.all_nil, Bool.and_true, hL]
    congr 1
    rw [Bool.eq_false_iff]
    intro htrue
    rw [buffersEqual_eq_true_iff] at htrue
    simp only [FileRes.readBlock, hg2, Nat.zero_add, Nat.min_self,
      Nat.sub_zero] at htrue
    rw [List.map_inj_left] at htrue
    obtain ⟨i, hi, hib⟩ := hne
    exact hib (htrue i (List.mem_range.mpr hi))

/-- Witness for C1 at `S = 1`, `blockSize = 4`, `sampleCount = 2`. -/
theorem C1_small_file_exact_witness :
    ((mkComparator 4 2).init fW1).samples = some [⟨0, 1, fW1.readBlock 0 1⟩]
      ∧ ((mkComparator 4 2).init fW1).isSame gW1 = Except.ok true
      ∧ ((mkComparator 4 2).init fW1).isSame gW1b = Except.ok false :=
  C1_small_file_exact 4 2 1 fW1 gW1 gW1b (by decide) (by decide) rfl rfl
    (fun _ _ => rfl) rfl ⟨0, by decide, by decide⟩

/-- Claim C2: `getRegions` after `init` returns zero regions when `S = 0`,
exactly one region `{0, S}` when `0 < S ≤ blockSize`, and exactly
`min(sampleCount, ceil(S/blockSize))` regions, each inside `[0, S)`, when
`S > blockSize` (the hypothesis `0 < blockSize` keeps the `ceil` defined;
the resource sizes cover the three cases). -/
theorem C2_regions_shape (blockSize sampleCount : Nat) (f0 fs fl : FileRes)
    (_hb : 0 < blockSize) (h0 : f0.size = 0) (hs1 : 0 < fs.size)
    (hs2 : fs.size ≤ blockSize) (hl : blockSize < fl.size) :
    ((mkComparator blockSize sampleCount).init f0).getRegions = Except.ok []
      ∧ ((mkComparator blockSize sampleCount).init fs).getRegions
        = Except.ok [⟨0, fs.size⟩]
      ∧ ∃ rs, ((mkComparator blockSize sampleCount).init fl).getRegions
            = Except.ok rs
          ∧ rs.length = min sampleCount ((fl.size + blockSize - 1) / blockSize)
          ∧ ∀ r ∈ rs, r.offset + r.length ≤ fl.size := by
  refine ⟨?_, ?_, ?_⟩
  · rw [init_zero _ h0]
    rfl
  · rw [init_small _ (by omega) hs2]
    have hL : (fs.readBlock 0 fs.size).length = fs.size :=
      readBlock_length_of_le fs (by omega)
    rw [getRegions_eq rfl]
    simp [hL]
  · rw [init_large _ hl, getRegions_eq rfl]
    refine ⟨_, rfl, ?_, ?_⟩
    · simp [mkComparator]
    · intro r hr
      simp only [mkComparator_blockSize, mkComparator_sampleCount,
        List.mem_map, List.mem_range] at hr
      obtain ⟨s, ⟨i, hi, rfl⟩, rfl⟩ := hr
      dsimp only
      rw [readBlock_length_of_le fl (sampleOffset_add_le (le_of_lt hl) _ i)]
      exact sampleOffset_add_le (le_of_lt hl) _ i

/-- Witness for C2 at `blockSize = 4`, `sampleCount = 2`, sizes 0, 3, 10. -/
theorem C2_regions_shape_witness :
    ((mkComparator 4 2).init fW2z).getRegions = Except.ok []
      ∧ ((mkComparator 4 2).init fW2s).getRegions = Except.ok [⟨0, fW2s.size⟩]
      ∧ ∃ rs, ((mkComparator 4 2).init fW2l).getRegions = Except.ok rs
          ∧ rs.length = min 2 ((fW2l.size + 4 - 1) / 4)
          ∧ ∀ r ∈ rs, r.offset + r.length ≤ fW2l.size :=
  C2_regions_shape 4 2 fW2z fW2s fW2l (by decide) rfl (by decide) (by decide)
    (by decide)

/-- Claim C3: on an initialized comparator with baseline size `bs`, `isSame`
on a resource of any other size returns "different" with zero byte-range
reads performed and the comparator unchanged. -/
theorem C3_size_mismatch_no_reads (c : SampledFileComparator) (bs : Nat)
    (sm : List Sample) (file : FallibleFile) (hb : c.baselineSize = some bs)
    (hs : c.samples = some sm) (hsz : file.size ≠ bs) :
    isSameE c file = (Except.ok false, c, 0) := by
  rw [isSameE_eq hb hs, if_pos hsz]

/-- Witness for C3: baseline of size 2 against a five-byte resource whose
reads all fail; the mismatch still answers without any read. -/
theorem C3_size_mismatch_no_reads_witness :
    isSameE cW3 fW3 = (Except.ok false, cW3, 0) :=
  C3_size_mismatch_no_reads cW3 2 [⟨0, 2, [1, 2]⟩] fW3 rfl rfl (by decide)

/-- Claim C6: `isSame` and `getRegions` before any `init` raise the
not-initialized error; that error is distinct from every comparison result;
and after any `init` neither operation errors. -/
theorem C6_uninitialized_errors (blockSize sampleCount : Nat)
    (f g : FileRes) :
    (mkComparator blockSize sampleCount).isSame g
        = Except.error CmpError.notInitialized
      ∧ (mkComparator blockSize sampleCount).getRegions
        = Except.error CmpError.notInitialized
      ∧ (∀ b : Bool,
          (Except.error CmpError.notInitialized : Except CmpError Bool)
            ≠ Except.ok b)
      ∧ (∀ c : SampledFileComparator, ∃ b,
          (c.init f).isSame g = Except.ok b)
      ∧ (∀ c : SampledFileComparator, ∃ rs,
          (c.init f).getRegions = Except.ok rs) := by
  refine ⟨rfl, rfl, fun b h => Except.noConfusion h, fun c => ?_,
    fun c => ?_⟩
  · obtain ⟨sz, sams, hbs, hsm⟩ := init_initialized c f
    exact isSame_ok_of_initialized hbs hsm g
  · obtain ⟨sz, sams, hbs, hsm⟩ := init_initialized c f
    exact ⟨_, getRegions_eq hsm⟩

/-- Claim C10: `init` is atomic with respect to read failures: whenever it
returns an error, the comparator state (baseline size, sample list, and the
`getRegions` view) is exactly the entry state, because the source assigns
the baseline fields only after all reads completed. -/
theorem C10_init_atomic (c : SampledFileComparator) (file : FallibleFile)
    (e : CmpError) (c2 : SampledFileComparator)
    (h : initE c file = (Except.error e, c2)) :
    c2.baselineSize = c.baselineSize ∧ c2.samples = c.samples
      ∧ c2.getRegions = c.getRegions := by
  have hc : c2 = c := initE_error_state c file e c2 h
  subst hc
  exact ⟨rfl, rfl, rfl⟩

/-- Witness for C10: an already-initialized comparator re-`init`ed against
a ten-byte resource whose reads fail keeps its previous baseline. -/
theorem C10_init_atomic_witness :
    cW10.baselineSize = cW10.baselineSize ∧ cW10.samples = cW10.samples
      ∧ cW10.getRegions = cW10.getRegions :=
  C10_init_atomic cW10 fW10 CmpError.readFailure cW10 rfl

/-- Claim C4: on a poll tick, when the observed modification timestamp
differs from the tracked value, the tick emits exactly the
changed-metadata notification, updates the tracked timestamp, sets
`lastUpdate` to `now`, performs zero byte-range reads (so `isSame` is not
invoked) and leaves the comparator — hence the baseline — untouched; the
content check runs only on the timestamp-unchanged path. -/
theorem C4_metadata_fast_path (s : WatchState) (comp : SampledFileComparator)
    (snap : Snapshot) (now : Nat) (hc : s.comparator = some comp)
    (hm : s.lastModified ≠ some snap.lastModified) :
    pollTickE s (some snap) now
        = ({ s with lastModified := some snap.lastModified,
                    lastUpdate := some now },
           [Notification.changedMetadata], 0)
      ∧ (pollTickE s (some snap) now).1.comparator = s.comparator := by
  obtain ⟨sc, slu, slm⟩ := s
  dsimp only at hc hm ⊢
  subst hc
  have h1 : pollTickE ⟨some comp, slu, slm⟩ (some snap) now
      = (⟨some comp, some now, some snap.lastModified⟩,
         [Notification.changedMetadata], 0) := by
    simp only [pollTickE]
    rw [if_pos hm]
  exact ⟨h1, by rw [h1]⟩

/-- Witness for C4: tracked timestamp 5, observed timestamp 7. -/
theorem C4_metadata_fast_path_witness :
    pollTickE sW4 (some snapW4) 99
        = ({ sW4 with lastModified := some snapW4.lastModified,
                      lastUpdate := some 99 },
           [Notification.changedMetadata], 0)
      ∧ (pollTickE sW4 (some snapW4) 99).1.comparator = sW4.comparator :=
  C4_metadata_fast_path sW4 cW10 snapW4 99 rfl (by decide)

/-- Claim C5: on an idle-timeout tick while watching (`lastUpdate` set;
positivity reflects that the source's falsy-0 guard only starts the timer
for nonzero timestamps), if `now - lastUpdate > maxDeltaMs` the session
becomes idle — comparator discarded, `lastUpdate` cleared, exactly one
stopped-watching notification — and otherwise nothing changes. -/
theorem C5_idle_timeout (s : WatchState) (lu maxDeltaMs now : Nat)
    (h : s.lastUpdate = some lu) (_hpos : 0 < lu) :
    (now - lu > maxDeltaMs →
      idleTick s maxDeltaMs now
        = ({ s with comparator := none, lastUpdate := none },
           [Notification.stoppedWatching]))
      ∧ (¬ now - lu > maxDeltaMs → idleTick s maxDeltaMs now = (s, [])) := by
  obtain ⟨sc, slu, slm⟩ := s
  dsimp only at h ⊢
  subst h
  constructor
  · intro hgt
    simp only [idleTick]
    rw [if_pos hgt]
  · intro hle
    simp only [idleTick]
    rw [if_neg hle]

/-- Witness for C5: `lastUpdate = 100`, `maxDeltaMs = 1000`, tick at
`now = 1200` (delta 1100 exceeds the timeout). -/
theorem C5_idle_timeout_witness :
    idleTick sW5 1000 1200
      = ({ sW5 with comparator := none, lastUpdate := none },
         [Notification.stoppedWatching]) :=
  (C5_idle_timeout sW5 100 1000 1200 rfl (by decide)).1 (by decide)

/-- Counterexample to claim C7 as stated: on a poll tick whose content
check hits a failing read, the source emits no notification at all (there
is no catch handler around the tick body), contradicting "the error is
reported to the caller/UI layer as a notification": the concrete tick
below fails its read yet produces an empty notification list. -/
theorem C7_read_error_counterexample :
    (isSameE cW10 snapW7.file).1 = Except.error CmpError.readFailure
      ∧ pollTickE sW7 (some snapW7) 100 = (sW7, [], 1) :=
  ⟨rfl, rfl⟩

/-- Claim C7 (amended): on every poll tick during which a read of the
resource fails, the error is not reported as a notification, the session
remains Watching — the tick's resulting state, comparator and `lastUpdate`
included, equals the entry state — and the next tick retries normally; the
failure is not fatal. The three failing-read paths of the source: a failed
metadata read (`snap = none`) and a failed comparison read each abort the
tick with no notification at all; a failed re-baselining read (the
comparison having already observed a content mismatch) leaves the state
equally unchanged, and the tick's only notification is the content-changed
one the source emitted before the failing read — not an error report. -/
theorem C7_read_error_nonfatal (s : WatchState)
    (comp : SampledFileComparator) (snap : Snapshot) (now : Nat)
    (hc : s.comparator = some comp)
    (hm : s.lastModified = some snap.lastModified) :
    pollTickE s none now = (s, [], 0)
      ∧ ((isSameE comp snap.file).1 = Except.error CmpError.readFailure →
          pollTickE s (some snap) now
            = (s, [], (isSameE comp snap.file).2.2))
      ∧ (∀ e, (isSameE comp snap.file).1 = Except.ok false →
          (initE comp snap.file).1 = Except.error e →
          pollTickE s (some snap) now
            = (s, [Notification.changedContent],
               (isSameE comp snap.file).2.2)) := by
  obtain ⟨sc, slu, slm⟩ := s
  dsimp only at hc hm
  subst hc hm
  refine ⟨rfl, ?_, ?_⟩
  · intro hr
    simp only [pollTickE]
    rw [if_neg (by simp)]
    rcases hiso : isSameE comp snap.file with ⟨r, cc, n⟩
    rw [hiso] at hr
    dsimp only at hr
    subst hr
    rfl
  · intro e hr hini
    have hcc := isSameE_state comp snap.file
    rcases hiso : isSameE comp snap.file with ⟨r, cc, n⟩
    rw [hiso] at hr hcc
    dsimp only at hr hcc
    subst hr
    rcases hini2 : initE comp snap.file with ⟨ri, ci⟩
    rw [hini2] at hini
    dsimp only at hini
    subst hini
    have hci : ci = comp := initE_error_state comp snap.file e ci hini2
    rw [hci] at hini2
    rw [hcc] at hiso
    simp [pollTickE, hiso, hini2]

/-- Witness for the amended C7: a tick whose comparison reads succeed and
observe a mismatch but whose re-baselining read fails — the contested
path: the state survives unchanged and the only notification is the
content-changed one. -/
theorem C7_read_error_nonfatal_witness :
    pollTickE sW7b (some snapW7b) 100
      = (sW7b, [Notification.changedContent],
         (isSameE cW7b snapW7b.file).2.2) :=
  (C7_read_error_nonfatal sW7b cW7b snapW7b 100 rfl rfl).2.2
    CmpError.readFailure rfl rfl

/-- Claim C8: `isSame` is deterministic and does not mutate the baseline:
whatever one call returns, the comparator state after it is the entry
state, a second call on the same unchanged resource returns the same
result, and the `getRegions` view is unchanged. -/
theorem C8_isSame_no_mutation (c : SampledFileComparator)
    (file : FallibleFile) (r : Except CmpError Bool)
    (c2 : SampledFileComparator) (n : Nat)
    (h : isSameE c file = (r, c2, n)) :
    c2 = c ∧ isSameE c2 file = (r, c2, n)
      ∧ c2.getRegions = c.getRegions := by
  have hc : c2 = c := by
    have hst := isSameE_state c file
    rw [h] at hst
    exact hst
  subst hc
  exact ⟨rfl, h, rfl⟩

/-- Witness for C8: a matching three-byte baseline; both calls answer
"same" after one read and the state is untouched. -/
theorem C8_isSame_no_mutation_witness :
    cW8 = cW8 ∧ isSameE cW8 fW8 = (Except.ok true, cW8, 1)
      ∧ cW8.getRegions = cW8.getRegions :=
  C8_isSame_no_mutation cW8 fW8 (Except.ok true) cW8 1 rfl

/-- Claim C9: end-to-end scenario A: a 10000-byte resource with
`blockSize = 4096`, `sampleCount = 64` yields exactly
`ceil(10000/4096) = 3` regions whose union covers `[0, 10000)`, and
`isSame` on a byte-identical copy returns "same". -/
theorem C9_scenario_a :
    cmpA.getRegions
        = Except.ok [⟨0, 4096⟩, ⟨2952, 4096⟩, ⟨5904, 4096⟩]
      ∧ (∀ j, j < 10000 →
          ∃ r ∈ [(⟨0, 4096⟩ : Region), ⟨2952, 4096⟩, ⟨5904, 4096⟩],
            r.offset ≤ j ∧ j < r.offset + r.length)
      ∧ cmpA.isSame fileACopy = Except.ok true := by
  refine ⟨?_, ?_, ?_⟩
  · rw [show cmpA = (mkComparator 4096 64).init fileA from rfl,
      init_large _ (by decide), getRegions_eq rfl]
    refine congrArg Except.ok ?_
    simp only [mkComparator_blockSize, mkComparator_sampleCount,
      readBlock_length, fileA_size]
    decide
  · intro j hj
    rcases Nat.lt_or_ge j 4096 with h1 | h1
    · refine ⟨⟨0, 4096⟩, by simp, ?_, ?_⟩ <;> (dsimp only; omega)
    · rcases Nat.lt_or_ge j 7048 with h2 | h2
      · refine ⟨⟨2952, 4096⟩, by simp, ?_, ?_⟩ <;> (dsimp only; omega)
      · refine ⟨⟨5904, 4096⟩, by simp, ?_, ?_⟩ <;> (dsimp only; omega)
  · exact isSame_init_agree _ rfl (fun _ _ => rfl)

end PollFile
